import Mathlib

/-!
Shallow embedding of the Vulkan pipeline-cache subsystem of yuzu
(`src/video_core/renderer_vulkan/vk_pipeline_cache.h`) and proofs of its
specified properties.

Machine integers are modelled as `Nat` with an explicit reduction modulo
`2 ^ 64` wherever `std::size_t` arithmetic may overflow.  The key types and
their `Hash` / `operator==` members are translated directly from the header.
Operations whose implementation file is not part of the provided sources
(`GetGraphicsPipeline`, `GetShaders`, `Unregister`,
`FillDescriptorUpdateTemplateEntries`) are modelled from the specification,
as noted in their doc comments.
-/

/-- `std::size_t` is 64 bits wide on the targeted platforms. -/
def sizeTMod : Nat := 2 ^ 64

/-- Modelled from the spec: `boost::hash_combine` (the external hashing
collaborator used by `GraphicsPipelineCacheKey::Hash`), with the classic
`seed ^= v + 0x9e3779b9 + (seed << 6) + (seed >> 2)` formula computed in
`std::size_t` arithmetic. -/
def hashCombine (seed v : Nat) : Nat :=
  (Nat.xor seed ((v + 0x9e3779b9 + seed * 64 + seed / 4) % sizeTMod)) % sizeTMod

/-- GPU virtual address (`GPUVAddr`, a `u64`). -/
abbrev GPUVAddr := Nat

/-- Modelled from the spec: `FixedPipelineState` (declared in
`fixed_pipeline_state.h`, not among the provided sources) is a flat value
struct of fixed-function register state with exact field-wise equality and a
deterministic hash of its fields. -/
structure FixedPipelineState where
  raster : Nat
  blend : Nat
  depth_stencil : Nat
  vertex_input : Nat
  topology : Nat
deriving DecidableEq, Repr

/-- Modelled from the spec: the fixed-state hash is a deterministic
combination of every field. -/
def FixedPipelineState.Hash (s : FixedPipelineState) : Nat :=
  List.foldl hashCombine (s.raster % sizeTMod)
    [s.blend, s.depth_stencil, s.vertex_input, s.topology]

/-- Modelled from the spec: `RenderPassParams` (declared in
`vk_renderpass_cache.h`, not among the provided sources) describes attachment
formats/layout, with exact equality and a deterministic hash. -/
structure RenderPassParams where
  color_formats : List Nat
  zeta_format : Nat
deriving DecidableEq, Repr

/-- Modelled from the spec: the render-pass-parameter hash is a deterministic
combination of every field. -/
def RenderPassParams.Hash (p : RenderPassParams) : Nat :=
  List.foldl hashCombine (p.zeta_format % sizeTMod) p.color_formats

/-- `GraphicsPipelineCacheKey`: fixed-function state, the per-stage shader
address array (`std::array<GPUVAddr, Maxwell::MaxShaderProgram>`, embedded as
a list in stage order), and render-pass parameters. -/
structure GraphicsPipelineCacheKey where
  fixed_state : FixedPipelineState
  shaders : List GPUVAddr
  renderpass_params : RenderPassParams
deriving DecidableEq, Repr

/-- `GraphicsPipelineCacheKey::Hash`: start from the fixed-state hash, fold
`boost::hash_combine` over the shader addresses in stage order, then combine
the render-pass-parameter hash. -/
def GraphicsPipelineCacheKey.Hash (k : GraphicsPipelineCacheKey) : Nat :=
  hashCombine (List.foldl hashCombine k.fixed_state.Hash k.shaders)
    k.renderpass_params.Hash

/-- `GraphicsPipelineCacheKey::operator==`: `std::tie(fixed_state, shaders,
renderpass_params) == std::tie(...)`, i.e. exact field-wise comparison. -/
def GraphicsPipelineCacheKey.beq (a b : GraphicsPipelineCacheKey) : Bool :=
  decide (a.fixed_state = b.fixed_state) && decide (a.shaders = b.shaders) &&
    decide (a.renderpass_params = b.renderpass_params)

/-- `ComputePipelineCacheKey`: shader address, shared-memory byte size and the
3-component workgroup size (`std::array<u32, 3>`, embedded component-wise). -/
structure ComputePipelineCacheKey where
  shader : GPUVAddr
  shared_memory_size : Nat
  workgroup_size : Nat × Nat × Nat
deriving DecidableEq, Repr

/-- `ComputePipelineCacheKey::Hash`:
`shader ^ ((shared_memory_size >> 7) << 40) ^ workgroup_size[0] ^
(workgroup_size[1] << 16) ^ (workgroup_size[2] << 24)` in `std::size_t`
arithmetic. -/
def ComputePipelineCacheKey.Hash (k : ComputePipelineCacheKey) : Nat :=
  Nat.xor (Nat.xor (Nat.xor (Nat.xor (k.shader % sizeTMod)
    (((k.shared_memory_size >>> 7) <<< 40) % sizeTMod))
    (k.workgroup_size.1 % sizeTMod))
    ((k.workgroup_size.2.1 <<< 16) % sizeTMod))
    ((k.workgroup_size.2.2 <<< 24) % sizeTMod)

/-- `ComputePipelineCacheKey::operator==`: `std::tie(shader,
shared_memory_size, workgroup_size) == std::tie(...)`. -/
def ComputePipelineCacheKey.beq (a b : ComputePipelineCacheKey) : Bool :=
  decide (a.shader = b.shader) &&
    decide (a.shared_memory_size = b.shared_memory_size) &&
    decide (a.workgroup_size = b.workgroup_size)

/-- `sizeof(u64)` in bytes. -/
def sizeofU64 : Nat := 8

/-- `ProgramCode`, a `std::vector<u64>`. -/
abbrev ProgramCode := List Nat

/-- `CachedShader`: one decompiled shader stage; the fields needed by its
size accounting. -/
structure CachedShader where
  gpu_addr : GPUVAddr
  program_code : ProgramCode

/-- `CachedShader::GetSizeInBytes`: `program_code.size() * sizeof(u64)`. -/
def CachedShader.GetSizeInBytes (s : CachedShader) : Nat :=
  s.program_code.length * sizeofU64

/-- Lookup in a cache map, embedded as an association list: the first entry
whose key equals the query, if any. -/
def cacheFind {α : Type} [DecidableEq α] : List (α × Nat) → α → Option Nat
  | [], _ => none
  | (k, v) :: rest, key => if key = k then some v else cacheFind rest key

/-- Removal of every entry under a key from a cache map. -/
def cacheErase {α : Type} [DecidableEq α] : List (α × Nat) → α → List (α × Nat)
  | [], _ => []
  | (k, v) :: rest, key =>
    if k = key then cacheErase rest key else (k, v) :: cacheErase rest key

/-- Key uniqueness of a cache map: no key is bound twice. -/
def nodupKeys {α : Type} [DecidableEq α] : List (α × Nat) → Bool
  | [] => true
  | (k, _) :: rest => (cacheFind rest k == none) && nodupKeys rest

/-- *PipelineBuildError*: the pipeline-builder collaborator rejected the
fixed-state/layout combination. -/
inductive PipelineBuildError where
  | build_failed
deriving DecidableEq, Repr

/-- Modelled from the spec: the observable state of `VKPipelineCache`.
Shader Objects and Pipeline Objects are identified by allocation numbers
(`next_shader_id`, `next_pipeline_id` are the fresh-allocation counters), so
that reference identity of instances is expressible: two references denote
the same live instance exactly when their identifiers are equal. -/
structure VKPipelineCache where
  shader_cache : List (GPUVAddr × Nat)
  next_shader_id : Nat
  graphics_cache : List (GraphicsPipelineCacheKey × Nat)
  compute_cache : List (ComputePipelineCacheKey × Nat)
  last_graphics_key : GraphicsPipelineCacheKey
  last_graphics_pipeline : Option Nat
  next_pipeline_id : Nat
deriving DecidableEq, Repr

/-- The default-constructed graphics key held by a freshly constructed
cache before any draw. -/
def initialGraphicsKey : GraphicsPipelineCacheKey :=
  { fixed_state := ⟨0, 0, 0, 0, 0⟩, shaders := [0, 0, 0, 0, 0, 0],
    renderpass_params := ⟨[], 0⟩ }

/-- A freshly constructed `VKPipelineCache`: empty maps, no fast-path
pipeline. -/
def initState : VKPipelineCache :=
  { shader_cache := [], next_shader_id := 0, graphics_cache := [],
    compute_cache := [], last_graphics_key := initialGraphicsKey,
    last_graphics_pipeline := none, next_pipeline_id := 0 }

/-- Modelled from the spec: the slow path of `GetGraphicsPipeline` — map
lookup, then on miss construction through the pipeline-builder collaborator
(`build`, which may fail with *PipelineBuildError*), insertion under the key
and fast-path update.  A successful construction allocates a fresh pipeline
instance; a failed construction inserts nothing. -/
def graphicsSlowPath (build : GraphicsPipelineCacheKey → Bool)
    (key : GraphicsPipelineCacheKey) (s : VKPipelineCache) :
    Except PipelineBuildError Nat × VKPipelineCache :=
  match cacheFind s.graphics_cache key with
  | some p =>
    (Except.ok p,
     { s with last_graphics_key := key, last_graphics_pipeline := some p })
  | none =>
    if build key then
      (Except.ok s.next_pipeline_id,
       { s with
          graphics_cache := (key, s.next_pipeline_id) :: s.graphics_cache,
          next_pipeline_id := s.next_pipeline_id + 1,
          last_graphics_key := key,
          last_graphics_pipeline := some s.next_pipeline_id })
    else (Except.error PipelineBuildError.build_failed, s)

/-- Modelled from the spec: `VKPipelineCache::GetGraphicsPipeline`,
parameterised by the pipeline-builder collaborator.  Fast path first: when
the key equals `last_graphics_key` and a last pipeline is set, return it with
no map lookup; otherwise take the slow path. -/
def GetGraphicsPipelineWith (build : GraphicsPipelineCacheKey → Bool)
    (key : GraphicsPipelineCacheKey) (s : VKPipelineCache) :
    Except PipelineBuildError Nat × VKPipelineCache :=
  match s.last_graphics_pipeline with
  | some p =>
    if key = s.last_graphics_key then (Except.ok p, s)
    else graphicsSlowPath build key s
  | none => graphicsSlowPath build key s

/-- Modelled from the spec: `VKPipelineCache::GetGraphicsPipeline` with an
always-succeeding pipeline builder (the normal path). -/
def GetGraphicsPipeline (key : GraphicsPipelineCacheKey)
    (s : VKPipelineCache) : Except PipelineBuildError Nat × VKPipelineCache :=
  GetGraphicsPipelineWith (fun _ => true) key s

/-- Fast-path consistency invariant of `VKPipelineCache`: whenever a last
graphics pipeline is set, the graphics map binds `last_graphics_key` to that
very pipeline. -/
def CacheInv (s : VKPipelineCache) : Bool :=
  match s.last_graphics_pipeline with
  | none => true
  | some p => cacheFind s.graphics_cache s.last_graphics_key == some p

/-- Modelled from the spec: the Shader Object Cache lookup-or-create
(`GetOrCreate(stage, gpu_addr, cpu_addr)` resolved through
`TryGet`/decompilation): return the cached object for the address if present,
otherwise decompile a fresh Shader Object, insert it under the address and
return it. -/
def GetOrCreate (addr : GPUVAddr) (s : VKPipelineCache) :
    Nat × VKPipelineCache :=
  match cacheFind s.shader_cache addr with
  | some i => (i, s)
  | none =>
    (s.next_shader_id,
     { s with shader_cache := (addr, s.next_shader_id) :: s.shader_cache,
              next_shader_id := s.next_shader_id + 1 })

/-- Modelled from the spec: `VKPipelineCache::GetShaders` — resolve each
currently bound per-stage address through the Shader Object Cache, in stage
order. -/
def GetShaders : List GPUVAddr → VKPipelineCache →
    List Nat × VKPipelineCache
  | [], s => ([], s)
  | a :: rest, s =>
    let r := GetOrCreate a s
    let r2 := GetShaders rest r.2
    (r.1 :: r2.1, r2.2)

/-- Modelled from the spec: `VKPipelineCache::Unregister` — invoked by the
memory-invalidation mechanism; removes the shader from the Shader Object
Cache and nothing else (the graphics and compute maps keep their entries). -/
def Unregister (addr : GPUVAddr) (s : VKPipelineCache) : VKPipelineCache :=
  { s with shader_cache := cacheErase s.shader_cache addr }

/-- Freshness invariant of the Shader Object Cache: every live shader
identifier was allocated below the counter. -/
def ShaderInv (s : VKPipelineCache) : Prop :=
  ∀ e ∈ s.shader_cache, e.2 < s.next_shader_id

/-- Resource category of a descriptor binding, in the fixed enumeration
order used by `FillDescriptorUpdateTemplateEntries`. -/
inductive DescriptorCat where
  | constBuffer
  | globalBuffer
  | texture
  | image
deriving DecidableEq, Repr

/-- Modelled from the spec: per-category descriptor-template stride in
bytes. -/
def catStride : DescriptorCat → Nat
  | DescriptorCat.constBuffer => 16
  | DescriptorCat.globalBuffer => 16
  | DescriptorCat.texture => 24
  | DescriptorCat.image => 24

/-- Modelled from the spec: `ShaderEntries` — the resources a shader
declares, per category and in declaration order.  Each resource is recorded
by an identifying payload; a sampler additionally carries its array size
(an array consumes one binding with a count greater than one). -/
structure ShaderEntries where
  const_buffers : List Nat
  global_buffers : List Nat
  samplers : List (Nat × Nat)
  images : List Nat
deriving DecidableEq, Repr

/-- One produced `VkDescriptorUpdateTemplateEntryKHR`: the declared resource
(`src`), its assigned binding index, descriptor count, category and byte
offset. -/
structure TemplateEntry where
  src : Nat
  dstBinding : Nat
  descriptorCount : Nat
  category : DescriptorCat
  offset : Nat
deriving DecidableEq, Repr

/-- Modelled from the spec: enumerate one category's resources, assigning
binding indices that increment by one per declared resource and byte offsets
that advance by the descriptor-template stride, returning the updated
binding, the updated offset and the produced template entries in declaration
order. -/
def fillResources (cat : DescriptorCat) :
    List (Nat × Nat) → Nat → Nat → Nat × Nat × List TemplateEntry
  | [], b, off => (b, off, [])
  | (p, c) :: rest, b, off =>
    let r := fillResources cat rest (b + 1) (off + c * catStride cat)
    (r.1, r.2.1, ⟨p, b, c, cat, off⟩ :: r.2.2)

/-- Modelled from the spec: `FillDescriptorUpdateTemplateEntries` — walk the
shader's resource entries in the fixed category order (constant buffers,
then global memory buffers, then texture samples, then storage images),
threading the binding index and byte offset through and appending the
produced template entries. -/
def FillDescriptorUpdateTemplateEntries (entries : ShaderEntries)
    (b off : Nat) : Nat × Nat × List TemplateEntry :=
  let r1 := fillResources DescriptorCat.constBuffer
    (entries.const_buffers.map (fun p => (p, 1))) b off
  let r2 := fillResources DescriptorCat.globalBuffer
    (entries.global_buffers.map (fun p => (p, 1))) r1.1 r1.2.1
  let r3 := fillResources DescriptorCat.texture entries.samplers r2.1 r2.2.1
  let r4 := fillResources DescriptorCat.image
    (entries.images.map (fun p => (p, 1))) r3.1 r3.2.1
  (r4.1, r4.2.1, r1.2.2 ++ r2.2.2 ++ r3.2.2 ++ r4.2.2)

/-! Concrete values used by witnesses and counter-checks. -/

/-- A concrete fixed-state value. -/
def fsA : FixedPipelineState := ⟨1, 2, 3, 4, 5⟩

/-- A concrete render-pass-parameter value. -/
def rpA : RenderPassParams := ⟨[7], 9⟩

/-- A concrete graphics key. -/
def gkeyW : GraphicsPipelineCacheKey := ⟨fsA, [4096, 0, 0, 0, 0, 8192], rpA⟩

/-- A graphics key binding shader addresses 1 and 2 to the first two
stages. -/
def gkSwap1 : GraphicsPipelineCacheKey := ⟨fsA, [1, 2, 0, 0, 0, 0], rpA⟩

/-- `gkSwap1` with the first two stage addresses exchanged. -/
def gkSwap2 : GraphicsPipelineCacheKey := ⟨fsA, [2, 1, 0, 0, 0, 0], rpA⟩

/-- The compute key `{shader=0x1000, shared_mem=256, wg=(8,8,1)}`. -/
def computeKeyWg881 : ComputePipelineCacheKey := ⟨0x1000, 256, (8, 8, 1)⟩

/-- The compute key `{shader=0x1000, shared_mem=256, wg=(8,1,1)}`. -/
def computeKeyWg811 : ComputePipelineCacheKey := ⟨0x1000, 256, (8, 1, 1)⟩

/-- A compute key with `shared_memory_size = 0`. -/
def computeKeySm0 : ComputePipelineCacheKey := ⟨0x1000, 0, (8, 8, 1)⟩

/-- `computeKeySm0` with `shared_memory_size = 100`, in the same 128-byte
bucket. -/
def computeKeySm100 : ComputePipelineCacheKey := ⟨0x1000, 100, (8, 8, 1)⟩

/-! Helper lemmas. -/

/-- `GraphicsPipelineCacheKey::operator==` decides propositional equality. -/
theorem graphicsKey_beq_iff_eq (a b : GraphicsPipelineCacheKey) :
    a.beq b = true ↔ a = b := by
  cases a
  cases b
  simp [GraphicsPipelineCacheKey.beq, GraphicsPipelineCacheKey.mk.injEq,
    and_assoc]

/-- `ComputePipelineCacheKey::operator==` decides propositional equality. -/
theorem computeKey_beq_iff_eq (a b : ComputePipelineCacheKey) :
    a.beq b = true ↔ a = b := by
  cases a
  cases b
  simp [ComputePipelineCacheKey.beq, ComputePipelineCacheKey.mk.injEq,
    and_assoc]

/-- Claim C1: for every pair of `GraphicsPipelineCacheKey` values `a` and
`b`, `a == b` holds exactly when the fixed state, the full shader-address
array and the render-pass parameters are field-wise equal, and whenever
`a == b` holds, `Hash(a) = Hash(b)`. -/
theorem graphicsKey_eq_iff_fields_and_hash_consistent
    (a b : GraphicsPipelineCacheKey) :
    (a.beq b = true ↔
      a.fixed_state = b.fixed_state ∧ a.shaders = b.shaders ∧
        a.renderpass_params = b.renderpass_params) ∧
    (a.beq b = true → a.Hash = b.Hash) := by
  constructor
  · rw [graphicsKey_beq_iff_eq]
    cases a
    cases b
    simp [GraphicsPipelineCacheKey.mk.injEq]
  · intro h
    rw [(graphicsKey_beq_iff_eq a b).mp h]

/-- Witness for claim C1 at a concrete key pair. -/
theorem graphicsKey_eq_iff_fields_and_hash_consistent_witness :
    gkeyW.beq gkeyW = true ∧ gkeyW.Hash = gkeyW.Hash :=
  ⟨by decide,
   (graphicsKey_eq_iff_fields_and_hash_consistent gkeyW gkeyW).2 (by decide)⟩

/-- Claim C3: `GraphicsPipelineCacheKey::Hash` starts from the fixed-state
hash, combines each per-stage shader address in stage order, then combines
the render-pass-parameter hash, in exactly that order; the combination is
order-sensitive — exchanging two stage addresses changes the hash. -/
theorem graphicsKey_hash_order :
    (∀ (fs : FixedPipelineState) (s0 s1 s2 s3 s4 s5 : GPUVAddr)
      (rp : RenderPassParams),
      GraphicsPipelineCacheKey.Hash ⟨fs, [s0, s1, s2, s3, s4, s5], rp⟩ =
        hashCombine (hashCombine (hashCombine (hashCombine (hashCombine
          (hashCombine (hashCombine fs.Hash s0) s1) s2) s3) s4) s5)
          rp.Hash) ∧
    gkSwap1.Hash ≠ gkSwap2.Hash := by
  constructor
  · intro fs s0 s1 s2 s3 s4 s5 rp
    rfl
  · decide

/-- Claim C4: compute-key equality holds exactly when the shader address,
the shared-memory size and all three workgroup components are equal; the two
spec example keys are unequal, and even hash-colliding keys compare unequal
when any field differs. -/
theorem computeKey_eq_iff_fields :
    (∀ a b : ComputePipelineCacheKey,
      a.beq b = true ↔
        a.shader = b.shader ∧ a.shared_memory_size = b.shared_memory_size ∧
          a.workgroup_size = b.workgroup_size) ∧
    computeKeyWg881.beq computeKeyWg811 = false ∧
    computeKeySm0.Hash = computeKeySm100.Hash ∧
    computeKeySm0.beq computeKeySm100 = false := by
  refine ⟨?_, by decide, by decide, by decide⟩
  intro a b
  rw [computeKey_beq_iff_eq]
  cases a
  cases b
  simp [ComputePipelineCacheKey.mk.injEq]

/-- Claim C9: `ComputePipelineCacheKey::Hash` depends on
`shared_memory_size` only through `shared_memory_size >>> 7`, so keys that
differ only within a 128-byte bucket (0 versus 100) collide while comparing
unequal; equal keys always hash equal. -/
theorem computeKey_hash_discards_low_bits :
    (∀ a b : ComputePipelineCacheKey, a.shader = b.shader →
      a.workgroup_size = b.workgroup_size →
      a.shared_memory_size >>> 7 = b.shared_memory_size >>> 7 →
      a.Hash = b.Hash) ∧
    (computeKeySm0.Hash = computeKeySm100.Hash ∧
      computeKeySm0.beq computeKeySm100 = false) ∧
    (∀ a b : ComputePipelineCacheKey, a.beq b = true → a.Hash = b.Hash) := by
  refine ⟨?_, ⟨by decide, by decide⟩, ?_⟩
  · intro a b hs hw hm
    unfold ComputePipelineCacheKey.Hash
    rw [hs, hw, hm]
  · intro a b h
    rw [(computeKey_beq_iff_eq a b).mp h]

/-- Witness for claim C9 at the concrete colliding key pair. -/
theorem computeKey_hash_discards_low_bits_witness :
    (computeKeySm0.shader = computeKeySm100.shader ∧
      computeKeySm0.workgroup_size = computeKeySm100.workgroup_size ∧
      computeKeySm0.shared_memory_size >>> 7 =
        computeKeySm100.shared_memory_size >>> 7) ∧
    computeKeySm0.Hash = computeKeySm100.Hash :=
  ⟨⟨by decide, by decide, by decide⟩,
   computeKey_hash_discards_low_bits.1 computeKeySm0 computeKeySm100
     (by decide) (by decide) (by decide)⟩

/-- Claim C10: `CachedShader::GetSizeInBytes` returns the number of 64-bit
words of the program bytecode multiplied by 8. -/
theorem cachedShader_size_in_bytes (s : CachedShader) :
    s.GetSizeInBytes = s.program_code.length * 8 :=
  rfl

/-- On a graphics-map hit (under the fast-path invariant), any variant of
`GetGraphicsPipeline` returns the cached pipeline and leaves the graphics
map untouched. -/
theorem getGraphicsWith_hit (build : GraphicsPipelineCacheKey → Bool)
    (s : VKPipelineCache) (k : GraphicsPipelineCacheKey) (p : Nat)
    (hinv : CacheInv s = true)
    (hfind : cacheFind s.graphics_cache k = some p) :
    (GetGraphicsPipelineWith build k s).1 = Except.ok p ∧
      (GetGraphicsPipelineWith build k s).2.graphics_cache =
        s.graphics_cache := by
  have hslow : (graphicsSlowPath build k s).1 = Except.ok p ∧
      (graphicsSlowPath build k s).2.graphics_cache = s.graphics_cache := by
    unfold graphicsSlowPath
    rw [hfind]
    exact ⟨rfl, rfl⟩
  unfold GetGraphicsPipelineWith
  cases hlp : s.last_graphics_pipeline with
  | none => exact hslow
  | some q =>
    dsimp only
    by_cases hk : k = s.last_graphics_key
    · rw [if_pos hk]
      unfold CacheInv at hinv
      rw [hlp] at hinv
      have hq : cacheFind s.graphics_cache s.last_graphics_key = some q := by
        simpa using hinv
      rw [← hk, hfind] at hq
      injection hq with h
      rw [h]
      exact ⟨rfl, rfl⟩
    · rw [if_neg hk]
      exact hslow

/-- On a graphics-map miss (under the fast-path invariant), any variant of
`GetGraphicsPipeline` reaches the pipeline builder: it either constructs a
fresh pipeline and inserts it, or fails leaving the state untouched. -/
theorem getGraphicsWith_miss (build : GraphicsPipelineCacheKey → Bool)
    (s : VKPipelineCache) (k : GraphicsPipelineCacheKey)
    (hinv : CacheInv s = true)
    (hfind : cacheFind s.graphics_cache k = none) :
    GetGraphicsPipelineWith build k s =
      if build k then
        (Except.ok s.next_pipeline_id,
         { s with
            graphics_cache := (k, s.next_pipeline_id) :: s.graphics_cache,
            next_pipeline_id := s.next_pipeline_id + 1,
            last_graphics_key := k,
            last_graphics_pipeline := some s.next_pipeline_id })
      else (Except.error PipelineBuildError.build_failed, s) := by
  have hslow : graphicsSlowPath build k s =
      if build k then
        (Except.ok s.next_pipeline_id,
         { s with
            graphics_cache := (k, s.next_pipeline_id) :: s.graphics_cache,
            next_pipeline_id := s.next_pipeline_id + 1,
            last_graphics_key := k,
            last_graphics_pipeline := some s.next_pipeline_id })
      else (Except.error PipelineBuildError.build_failed, s) := by
    unfold graphicsSlowPath
    rw [hfind]
  unfold GetGraphicsPipelineWith
  cases hlp : s.last_graphics_pipeline with
  | none => exact hslow
  | some q =>
    dsimp only
    by_cases hk : k = s.last_graphics_key
    · exfalso
      unfold CacheInv at hinv
      rw [hlp] at hinv
      have hq : cacheFind s.graphics_cache s.last_graphics_key = some q := by
        simpa using hinv
      rw [← hk, hfind] at hq
      exact Option.noConfusion hq
    · rw [if_neg hk]
      exact hslow

/-- A concrete cache state whose graphics map binds `gkeyW` to pipeline 5. -/
def stateW : VKPipelineCache :=
  { shader_cache := [], next_shader_id := 0,
    graphics_cache := [(gkeyW, 5)], compute_cache := [],
    last_graphics_key := initialGraphicsKey,
    last_graphics_pipeline := none, next_pipeline_id := 6 }

/-- Claim C2: once a graphics key is in the map, `GetGraphicsPipeline`
returns that very pipeline instance and leaves the map unchanged; and the
sequence `GetGraphicsPipeline(k1)`, `GetGraphicsPipeline(k2)`,
`GetGraphicsPipeline(k1)` with `k1 ≠ k2` from a fresh cache has the third
call return the same instance as the first, with exactly two map entries. -/
theorem getGraphicsPipeline_stable :
    (∀ (s : VKPipelineCache) (k : GraphicsPipelineCacheKey) (p : Nat),
      CacheInv s = true → cacheFind s.graphics_cache k = some p →
      (GetGraphicsPipeline k s).1 = Except.ok p ∧
        (GetGraphicsPipeline k s).2.graphics_cache = s.graphics_cache) ∧
    (∀ k1 k2 : GraphicsPipelineCacheKey, k1 ≠ k2 →
      (GetGraphicsPipeline k1
          ((GetGraphicsPipeline k2
            ((GetGraphicsPipeline k1 initState).2)).2)).1 =
        (GetGraphicsPipeline k1 initState).1 ∧
      (GetGraphicsPipeline k1
          ((GetGraphicsPipeline k2
            ((GetGraphicsPipeline k1 initState).2)).2)).2.graphics_cache.length
        = 2) := by
  constructor
  · intro s k p hinv hfind
    exact getGraphicsWith_hit (fun _ => true) s k p hinv hfind
  · intro k1 k2 hne
    have h1 : GetGraphicsPipeline k1 initState =
        (Except.ok 0, ⟨[], 0, [(k1, 0)], [], k1, some 0, 1⟩) := by
      simp [GetGraphicsPipeline, GetGraphicsPipelineWith, graphicsSlowPath,
        cacheFind, initState]
    have h2 : GetGraphicsPipeline k2 ⟨[], 0, [(k1, 0)], [], k1, some 0, 1⟩ =
        (Except.ok 1, ⟨[], 0, [(k2, 1), (k1, 0)], [], k2, some 1, 2⟩) := by
      simp [GetGraphicsPipeline, GetGraphicsPipelineWith, graphicsSlowPath,
        cacheFind, Ne.symm hne]
    have h3 : GetGraphicsPipeline k1
        ⟨[], 0, [(k2, 1), (k1, 0)], [], k2, some 1, 2⟩ =
        (Except.ok 0, ⟨[], 0, [(k2, 1), (k1, 0)], [], k1, some 0, 2⟩) := by
      simp [GetGraphicsPipeline, GetGraphicsPipelineWith, graphicsSlowPath,
        cacheFind, hne]
    rw [h1, h2, h3]
    exact ⟨rfl, rfl⟩

/-- Witness for claim C2: a concrete hit on `stateW` and the concrete
three-call sequence on the two swapped-stage keys. -/
theorem getGraphicsPipeline_stable_witness :
    ((GetGraphicsPipeline gkeyW stateW).1 = Except.ok 5 ∧
      (GetGraphicsPipeline gkeyW stateW).2.graphics_cache =
        stateW.graphics_cache) ∧
    ((GetGraphicsPipeline gkSwap1
        ((GetGraphicsPipeline gkSwap2
          ((GetGraphicsPipeline gkSwap1 initState).2)).2)).1 =
      (GetGraphicsPipeline gkSwap1 initState).1 ∧
    (GetGraphicsPipeline gkSwap1
        ((GetGraphicsPipeline gkSwap2
          ((GetGraphicsPipeline gkSwap1 initState).2)).2)).2.graphics_cache.length
      = 2) :=
  ⟨getGraphicsPipeline_stable.1 stateW gkeyW 5 (by decide) (by decide),
   getGraphicsPipeline_stable.2 gkSwap1 gkSwap2 (by decide)⟩

/-- Claim C6: when pipeline construction fails with *PipelineBuildError*,
nothing is inserted and the whole cache state is unchanged, so an identical
subsequent request reaches the builder again and, if construction now
succeeds, creates and caches the pipeline. -/
theorem getGraphicsPipeline_build_failure
    (build : GraphicsPipelineCacheKey → Bool) (s : VKPipelineCache)
    (k : GraphicsPipelineCacheKey) (hinv : CacheInv s = true)
    (hfind : cacheFind s.graphics_cache k = none)
    (hfail : build k = false) :
    GetGraphicsPipelineWith build k s =
      (Except.error PipelineBuildError.build_failed, s) ∧
    (∀ build2 : GraphicsPipelineCacheKey → Bool, build2 k = true →
      (GetGraphicsPipelineWith build2 k s).1 = Except.ok s.next_pipeline_id ∧
      cacheFind (GetGraphicsPipelineWith build2 k s).2.graphics_cache k =
        some s.next_pipeline_id) := by
  constructor
  · rw [getGraphicsWith_miss build s k hinv hfind, hfail]
    simp
  · intro build2 hok
    rw [getGraphicsWith_miss build2 s k hinv hfind, hok]
    simp [cacheFind]

/-- Witness for claim C6: a failing builder on a fresh cache leaves it
untouched and a succeeding retry constructs pipeline 0. -/
theorem getGraphicsPipeline_build_failure_witness :
    (GetGraphicsPipelineWith (fun _ => false) gkeyW initState =
      (Except.error PipelineBuildError.build_failed, initState)) ∧
    ((GetGraphicsPipelineWith (fun _ => true) gkeyW initState).1 =
      Except.ok 0 ∧
    cacheFind (GetGraphicsPipelineWith (fun _ => true) gkeyW
      initState).2.graphics_cache gkeyW = some 0) :=
  ⟨(getGraphicsPipeline_build_failure (fun _ => false) initState gkeyW
      (by decide) (by decide) rfl).1,
   (getGraphicsPipeline_build_failure (fun _ => false) initState gkeyW
      (by decide) (by decide) rfl).2 (fun _ => true) rfl⟩

/-- Erasing a key from a cache map makes its lookup miss. -/
theorem cacheFind_cacheErase_self {α : Type} [DecidableEq α]
    (l : List (α × Nat)) (a : α) : cacheFind (cacheErase l a) a = none := by
  induction l with
  | nil => rfl
  | cons e rest ih =>
    obtain ⟨k, v⟩ := e
    unfold cacheErase
    by_cases hk : k = a
    · rw [if_pos hk]
      exact ih
    · rw [if_neg hk]
      unfold cacheFind
      rw [if_neg (fun h => hk h.symm)]
      exact ih

/-- A successful lookup comes from an entry of the map. -/
theorem cacheFind_mem {α : Type} [DecidableEq α]
    (l : List (α × Nat)) (a : α) (v : Nat) (h : cacheFind l a = some v) :
    (a, v) ∈ l := by
  induction l with
  | nil => exact Option.noConfusion h
  | cons e rest ih =>
    obtain ⟨k, w⟩ := e
    unfold cacheFind at h
    by_cases hk : a = k
    · rw [if_pos hk] at h
      injection h with h
      rw [hk, h]
      exact List.mem_cons_self _ _
    · rw [if_neg hk] at h
      exact List.mem_cons_of_mem _ (ih h)

/-- A concrete cache state with one registered shader and one cached
graphics pipeline. -/
def stateU : VKPipelineCache :=
  { shader_cache := [(100, 3)], next_shader_id := 4,
    graphics_cache := [(gkeyW, 5)], compute_cache := [],
    last_graphics_key := initialGraphicsKey,
    last_graphics_pipeline := none, next_pipeline_id := 6 }

/-- Claim C7: `Unregister` removes the shader from the Shader Object Cache —
a subsequent resolution of its address is a fresh miss yielding a distinct
Shader Object — while the graphics and compute pipeline maps are left
unchanged, and cached graphics keys still resolve to their old pipeline
objects. -/
theorem unregister_forgets_shader (s : VKPipelineCache) (addr : GPUVAddr)
    (i : Nat) (hshinv : ShaderInv s)
    (hfindi : cacheFind s.shader_cache addr = some i) :
    cacheFind (Unregister addr s).shader_cache addr = none ∧
    (Unregister addr s).graphics_cache = s.graphics_cache ∧
    (Unregister addr s).compute_cache = s.compute_cache ∧
    (GetOrCreate addr (Unregister addr s)).1 ≠ i ∧
    (∀ (k : GraphicsPipelineCacheKey) (p : Nat), CacheInv s = true →
      cacheFind s.graphics_cache k = some p →
      (GetGraphicsPipeline k (Unregister addr s)).1 = Except.ok p) := by
  have hfind' : cacheFind (Unregister addr s).shader_cache addr = none :=
    cacheFind_cacheErase_self s.shader_cache addr
  refine ⟨hfind', rfl, rfl, ?_, ?_⟩
  · have hget : (GetOrCreate addr (Unregister addr s)).1 = s.next_shader_id := by
      unfold GetOrCreate
      rw [hfind']
      rfl
    have hi : i < s.next_shader_id :=
      hshinv (addr, i) (cacheFind_mem s.shader_cache addr i hfindi)
    rw [hget]
    omega
  · intro k p hinv hfindk
    exact (getGraphicsWith_hit (fun _ => true) (Unregister addr s) k p hinv
      hfindk).1

/-- Witness for claim C7 on a concrete one-shader cache state. -/
theorem unregister_forgets_shader_witness :
    cacheFind (Unregister 100 stateU).shader_cache 100 = none ∧
    (Unregister 100 stateU).graphics_cache = stateU.graphics_cache ∧
    (Unregister 100 stateU).compute_cache = stateU.compute_cache ∧
    (GetOrCreate 100 (Unregister 100 stateU)).1 ≠ 3 ∧
    (GetGraphicsPipeline gkeyW (Unregister 100 stateU)).1 = Except.ok 5 := by
  obtain ⟨h1, h2, h3, h4, h5⟩ :=
    unregister_forgets_shader stateU 100 3
      (by unfold ShaderInv; decide) (by decide)
  exact ⟨h1, h2, h3, h4, h5 gkeyW 5 (by decide) (by decide)⟩

/-- After `GetOrCreate`, the address resolves to the returned Shader
Object. -/
theorem getOrCreate_find_self (a : GPUVAddr) (s : VKPipelineCache) :
    cacheFind (GetOrCreate a s).2.shader_cache a = some (GetOrCreate a s).1 := by
  unfold GetOrCreate
  cases h : cacheFind s.shader_cache a with
  | some i => exact h
  | none =>
    dsimp only
    unfold cacheFind
    rw [if_pos rfl]

/-- `GetOrCreate` never rebinds an already-resolved address. -/
theorem getOrCreate_preserves (a b : GPUVAddr) (j : Nat) (s : VKPipelineCache)
    (h : cacheFind s.shader_cache b = some j) :
    cacheFind (GetOrCreate a s).2.shader_cache b = some j := by
  unfold GetOrCreate
  cases hf : cacheFind s.shader_cache a with
  | some i => exact h
  | none =>
    dsimp only
    unfold cacheFind
    have hba : ¬ b = a := by
      intro e
      rw [e] at h
      rw [h] at hf
      exact Option.noConfusion hf
    rw [if_neg hba]
    exact h

/-- On a Shader Object Cache hit, `GetOrCreate` returns the cached object
and changes nothing. -/
theorem getOrCreate_of_find (a : GPUVAddr) (i : Nat) (s : VKPipelineCache)
    (h : cacheFind s.shader_cache a = some i) : GetOrCreate a s = (i, s) := by
  unfold GetOrCreate
  rw [h]

/-- `GetShaders` never rebinds an already-resolved address. -/
theorem getShaders_preserves (l : List GPUVAddr) (b : GPUVAddr) (j : Nat) :
    ∀ s : VKPipelineCache, cacheFind s.shader_cache b = some j →
      cacheFind (GetShaders l s).2.shader_cache b = some j := by
  induction l with
  | nil => intro s h; exact h
  | cons a rest ih =>
    intro s h
    simp only [GetShaders]
    exact ih (GetOrCreate a s).2 (getOrCreate_preserves a b j s h)

/-- `GetOrCreate` preserves key uniqueness of the Shader Object Cache. -/
theorem getOrCreate_nodup (a : GPUVAddr) (s : VKPipelineCache)
    (h : nodupKeys s.shader_cache = true) :
    nodupKeys (GetOrCreate a s).2.shader_cache = true := by
  unfold GetOrCreate
  cases hf : cacheFind s.shader_cache a with
  | some i => exact h
  | none =>
    dsimp only
    unfold nodupKeys
    rw [hf]
    simpa using h

/-- `GetShaders` preserves key uniqueness of the Shader Object Cache. -/
theorem getShaders_nodup (l : List GPUVAddr) :
    ∀ s : VKPipelineCache, nodupKeys s.shader_cache = true →
      nodupKeys (GetShaders l s).2.shader_cache = true := by
  induction l with
  | nil => intro s h; exact h
  | cons a rest ih =>
    intro s h
    simp only [GetShaders]
    exact ih (GetOrCreate a s).2 (getOrCreate_nodup a s h)

/-- A second `GetShaders` over the same bound addresses returns the same
Shader Object instances and changes nothing. -/
theorem getShaders_idem (l : List GPUVAddr) :
    ∀ s : VKPipelineCache,
      GetShaders l (GetShaders l s).2 =
        ((GetShaders l s).1, (GetShaders l s).2) := by
  induction l with
  | nil => intro s; rfl
  | cons a rest ih =>
    intro s
    simp only [GetShaders]
    rw [getOrCreate_of_find a (GetOrCreate a s).1
      (GetShaders rest (GetOrCreate a s).2).2
      (getShaders_preserves rest a (GetOrCreate a s).1 (GetOrCreate a s).2
        (getOrCreate_find_self a s))]
    rw [ih (GetOrCreate a s).2]

/-- Claim C8: the Shader Object Cache keeps at most one live Shader Object
per GPU virtual address (key uniqueness is preserved by `GetShaders`), and
calling `GetShaders` twice with unchanged bound addresses returns, for each
stage, the same underlying Shader Object instance and leaves the cache
unchanged. -/
theorem getShaders_stable (addrs : List GPUVAddr) (s : VKPipelineCache)
    (h : nodupKeys s.shader_cache = true) :
    nodupKeys (GetShaders addrs s).2.shader_cache = true ∧
    GetShaders addrs (GetShaders addrs s).2 =
      ((GetShaders addrs s).1, (GetShaders addrs s).2) :=
  ⟨getShaders_nodup addrs s h, getShaders_idem addrs s⟩

/-- Witness for claim C8 on concrete bound addresses over a fresh cache. -/
theorem getShaders_stable_witness :
    nodupKeys (GetShaders [100, 200, 100] initState).2.shader_cache = true ∧
    GetShaders [100, 200, 100] (GetShaders [100, 200, 100] initState).2 =
      ((GetShaders [100, 200, 100] initState).1,
        (GetShaders [100, 200, 100] initState).2) :=
  getShaders_stable [100, 200, 100] initState (by decide)

/-- Per-resource template enumeration within one category: binding indices
increment by one per declared resource starting at the incoming binding, the
category is fixed, declaration order is preserved, and the outgoing binding
advances by the number of resources. -/
theorem fillResources_spec (cat : DescriptorCat) (rs : List (Nat × Nat)) :
    ∀ b off : Nat,
      (fillResources cat rs b off).2.2.map TemplateEntry.dstBinding =
        List.range' b rs.length ∧
      (fillResources cat rs b off).2.2.map TemplateEntry.category =
        List.replicate rs.length cat ∧
      (fillResources cat rs b off).2.2.map TemplateEntry.src =
        rs.map Prod.fst ∧
      (fillResources cat rs b off).1 = b + rs.length := by
  induction rs with
  | nil => intro b off; exact ⟨rfl, rfl, rfl, rfl⟩
  | cons pc rest ih =>
    intro b off
    obtain ⟨p, c⟩ := pc
    obtain ⟨h1, h2, h3, h4⟩ := ih (b + 1) (off + c * catStride cat)
    refine ⟨?_, ?_, ?_, ?_⟩
    · simp only [fillResources, List.map_cons, h1, List.length_cons]
      rw [List.range'_succ]
    · simp only [fillResources, List.map_cons, h2, List.length_cons,
        List.replicate_succ]
    · simp only [fillResources, List.map_cons, h3]
    · simp only [fillResources, h4, List.length_cons]
      omega

theorem range'_quad (b n1 n2 n3 n4 : Nat) :
    List.range' b n1 ++ (List.range' (b + n1) n2 ++
      (List.range' (b + n1 + n2) n3 ++ List.range' (b + n1 + n2 + n3) n4)) =
      List.range' b (n1 + n2 + n3 + n4) := by
  rw [List.range'_append_1 (b + n1 + n2) n3 n4]
  rw [List.range'_append_1 (b + n1) n2 (n4 + n3)]
  rw [List.range'_append_1 b n1 (n4 + n3 + n2)]
  congr 1
  omega

example (l1 l2 l3 l4 : List Nat) : l1 ++ l2 ++ l3 ++ l4 = l1 ++ (l2 ++ (l3 ++ l4)) := by
  simp [List.append_assoc]

theorem fill_bindings_ordered :
    ∀ (e : ShaderEntries) (b off : Nat),
      (FillDescriptorUpdateTemplateEntries e b off).2.2.map
          TemplateEntry.dstBinding =
        List.range' b (e.const_buffers.length + e.global_buffers.length +
          e.samplers.length + e.images.length) ∧
      (FillDescriptorUpdateTemplateEntries e b off).2.2.map
          TemplateEntry.category =
        List.replicate e.const_buffers.length DescriptorCat.constBuffer ++
          List.replicate e.global_buffers.length DescriptorCat.globalBuffer ++
          List.replicate e.samplers.length DescriptorCat.texture ++
          List.replicate e.images.length DescriptorCat.image ∧
      (FillDescriptorUpdateTemplateEntries e b off).2.2.map
          TemplateEntry.src =
        e.const_buffers ++ e.global_buffers ++ e.samplers.map Prod.fst ++
          e.images := by
  intro e b off
  have s1 := fillResources_spec DescriptorCat.constBuffer
    (e.const_buffers.map fun p => (p, 1)) b off
  simp only [FillDescriptorUpdateTemplateEntries]
  generalize hr1 : fillResources DescriptorCat.constBuffer
    (e.const_buffers.map fun p => (p, 1)) b off = r1 at s1 ⊢
  obtain ⟨a1, a2, a3, a4⟩ := s1
  have s2 := fillResources_spec DescriptorCat.globalBuffer
    (e.global_buffers.map fun p => (p, 1)) r1.1 r1.2.1
  generalize hr2 : fillResources DescriptorCat.globalBuffer
    (e.global_buffers.map fun p => (p, 1)) r1.1 r1.2.1 = r2 at s2 ⊢
  obtain ⟨b1, b2, b3, b4⟩ := s2
  have s3 := fillResources_spec DescriptorCat.texture e.samplers r2.1 r2.2.1
  generalize hr3 : fillResources DescriptorCat.texture e.samplers
    r2.1 r2.2.1 = r3 at s3 ⊢
  obtain ⟨c1, c2, c3, c4⟩ := s3
  have s4 := fillResources_spec DescriptorCat.image
    (e.images.map fun p => (p, 1)) r3.1 r3.2.1
  generalize hr4 : fillResources DescriptorCat.image
    (e.images.map fun p => (p, 1)) r3.1 r3.2.1 = r4 at s4 ⊢
  obtain ⟨d1, d2, d3, d4⟩ := s4
  rw [List.length_map] at a1 a4 b1 b4 d1
  rw [a4] at b1 b4
  rw [b4] at c1 c4
  rw [c4] at d1
  refine ⟨?_, ?_, ?_⟩
  · simp only [List.map_append, a1, b1, c1, d1, List.append_assoc]
    exact range'_quad b e.const_buffers.length e.global_buffers.length
      e.samplers.length e.images.length
  · simp only [List.map_append, a2, b2, c2, d2, List.length_map]
  · simp only [List.map_append, a3, b3, c3, d3, List.map_map]
    have hcomp : (Prod.fst ∘ fun p : Nat => ((p, 1) : Nat × Nat)) = id := by
      funext p
      rfl
    simp [hcomp]

/-- The concrete `ShaderEntries` of the spec example: 2 constant buffers,
1 global buffer, 3 texture samples, no storage images. -/
def entries213 : ShaderEntries :=
  { const_buffers := [10, 11], global_buffers := [20],
    samplers := [(30, 1), (31, 1), (32, 1)], images := [] }

/-- Claim C5: `FillDescriptorUpdateTemplateEntries` assigns binding indices
in the fixed category order — constant buffers, global memory buffers,
texture samples, storage images — preserving declaration order within each
category, with indices incrementing by one per declared resource; on the
spec example (2 constant buffers, 1 global buffer, 3 texture samples) the
indices are 0,1 then 2 then 3,4,5. -/
theorem fillDescriptorEntries_binding_order :
    (∀ (e : ShaderEntries) (b off : Nat),
      (FillDescriptorUpdateTemplateEntries e b off).2.2.map
          TemplateEntry.dstBinding =
        List.range' b (e.const_buffers.length + e.global_buffers.length +
          e.samplers.length + e.images.length) ∧
      (FillDescriptorUpdateTemplateEntries e b off).2.2.map
          TemplateEntry.category =
        List.replicate e.const_buffers.length DescriptorCat.constBuffer ++
          List.replicate e.global_buffers.length DescriptorCat.globalBuffer ++
          List.replicate e.samplers.length DescriptorCat.texture ++
          List.replicate e.images.length DescriptorCat.image ∧
      (FillDescriptorUpdateTemplateEntries e b off).2.2.map
          TemplateEntry.src =
        e.const_buffers ++ e.global_buffers ++ e.samplers.map Prod.fst ++
          e.images) ∧
    ((FillDescriptorUpdateTemplateEntries entries213 0 0).2.2.map
        TemplateEntry.dstBinding = [0, 1, 2, 3, 4, 5] ∧
      (FillDescriptorUpdateTemplateEntries entries213 0 0).2.2.map
          TemplateEntry.category =
        [DescriptorCat.constBuffer, DescriptorCat.constBuffer,
          DescriptorCat.globalBuffer, DescriptorCat.texture,
          DescriptorCat.texture, DescriptorCat.texture]) :=
  ⟨fill_bindings_ordered, by decide, by decide⟩
